/-
  Verification of the Epitome autonomous-devops pipeline
  (src/autonomous_devops): agent loop, response parsing, retryable model
  caller, merge-confidence formula, branch-name slugification, and
  pull-request creation.

  The Python source is embedded shallowly:
  * Python dictionaries/JSON values become the inductive type `Json`;
    `json.loads` is an external library routine and is passed in as a
    parameter `decode : String → Except String Json` (`.error` plays the
    role of `json.JSONDecodeError`, carrying its message).
  * The generative-model capability (`llm.generate_content`) is a
    parameter `model : Nat → Except GenError GenResponse`, giving the
    outcome of the i-th raw model invocation.
  * Tool capabilities are parameters `Json → Except String String`
    (`.error` is a raised exception, whose text the loop folds back into
    the conversation).
  * Code paths that raise uncaught Python exceptions are represented with
    `Except` results (`PyExc`).
-/
import Mathlib

namespace Epitome

/-- Scan a character list for the first occurrence of `pat`; on success
return the characters before the occurrence and the characters after it.
This models the leftmost match of Python's `re.search` for a literal
delimiter. -/
def findFirst (pat : List Char) : List Char → Option (List Char × List Char)
  | [] => if pat.isEmpty then some ([], []) else none
  | c :: cs =>
    if pat.isPrefixOf (c :: cs) then some ([], (c :: cs).drop pat.length)
    else
      match findFirst pat cs with
      | some (pre, post) => some (c :: pre, post)
      | none => none

/-- Substring test (Python `needle in haystack` on strings). -/
def strContains (haystack needle : String) : Bool :=
  (findFirst needle.toList haystack.toList).isSome

/-- Python `str.strip()`: drop leading and trailing whitespace. -/
def pyStrip (s : String) : String :=
  ((s.toList.dropWhile Char.isWhitespace).reverse.dropWhile Char.isWhitespace).reverse.asString

/-- Python/JSON values, as produced by `json.loads`. -/
inductive Json where
  | null
  | bool (b : Bool)
  | num (n : Int)
  | str (s : String)
  | arr (elems : List Json)
  | obj (fields : List (String × Json))

/-- Python truthiness (`if value:`) of a JSON value: `None`, `False`, `0`,
`""`, `[]` and `{ }` are falsy, everything else truthy. -/
def Json.truthy : Json → Bool
  | .null => false
  | .bool b => b
  | .num n => !(n == 0)
  | .str s => !(s == "")
  | .arr xs => !xs.isEmpty
  | .obj fs => !fs.isEmpty

/-- Python `value.get(key)`: succeeds on a dict (returning the value, or
`None`, i.e. `none`, when the key is absent) and raises an
`AttributeError` on any other value. -/
def Json.pyGet : Json → String → Except String (Option Json)
  | .obj fs, k => .ok ((fs.find? (fun p => p.1 == k)).map (fun p => p.2))
  | _, _ => .error "AttributeError: object has no attribute get"

/-- Python `key in value` for a string key: key lookup on a dict, element
membership on a list, substring test on a string, and a `TypeError` on
non-iterable values. -/
def Json.pyContains : Json → String → Except String Bool
  | .obj fs, k => .ok (fs.any (fun p => p.1 == k))
  | .arr xs, k => .ok (xs.any (fun j => match j with | .str s => s == k | _ => false))
  | .str s, k => .ok (strContains s k)
  | _, _ => .error "TypeError: argument is not iterable"

/-- Python `del value[key]` for a string key: removes the key from a dict
and raises a `TypeError` on any other value. -/
def Json.pyDelKey : Json → String → Except String Json
  | .obj fs, k => .ok (.obj (fs.filter (fun p => !(p.1 == k))))
  | _, _ => .error "TypeError: object does not support item deletion"

/-! ## Response parsing

Each agent file defines the same two extraction helpers
(`_parse_tool_code`, `_parse_final_answer`), built on a DOTALL
`re.search` for the pattern `<tag>(.*?)</tag>`.  For a literal pair of
delimiters with a lazy group, the leftmost match starts at the first
occurrence of the opening tag and the group runs to the first occurrence
of the closing tag after it; if the closing tag never occurs after the
first opening tag, there is no match at all. -/

/-- The text enclosed by the first `openTag` / `closeTag` pair, if any. -/
def extractBlock (openTag closeTag text : String) : Option String :=
  match findFirst openTag.toList text.toList with
  | none => none
  | some (_, afterOpen) =>
    match findFirst closeTag.toList afterOpen with
    | none => none
    | some (inner, _) => some inner.asString

/-- `BuilderAgent._parse_final_answer` (identical in every agent):
extract the first `<final_answer>` block and strictly JSON-decode its
stripped contents; a missing block or a decode failure yields `none`
(the `json.JSONDecodeError` is swallowed). -/
def parse_final_answer (decode : String → Except String Json) (text : String) : Option Json :=
  match extractBlock "<final_answer>" "</final_answer>" text with
  | some inner =>
    match decode (pyStrip inner) with
    | .ok fa => some fa
    | .error _ => none
  | none => none

/-- `BuilderAgent._parse_tool_code` (identical in every agent): extract
the first `<tool_code>` block, JSON-decode its stripped contents and read
`tool_call.get("tool_name")` and `tool_call.get("parameters", { })`.
A missing block or a decode failure yields `(None, None)`; but the `.get`
calls sit inside a `try` that catches only `json.JSONDecodeError`, so a
successfully decoded non-object value raises an `AttributeError`
(`Except.error`). -/
def parse_tool_code (decode : String → Except String Json) (text : String) :
    Except String (Option Json × Option Json) :=
  match extractBlock "<tool_code>" "</tool_code>" text with
  | some inner =>
    match decode (pyStrip inner) with
    | .ok toolCall => do
      let name ← toolCall.pyGet "tool_name"
      let params ← toolCall.pyGet "parameters"
      .ok (name, some (params.getD (Json.obj [])))
    | .error _ => .ok (none, none)
  | none => .ok (none, none)

/-! ## Generative-model capability and the retryable model caller

`llm.generate_content` either returns a response (whose `parts` may be
empty, in which case its text is unavailable) or raises; the raised
exception is either `google.api_core.exceptions.ResourceExhausted` (the
rate-limit kind) or some other exception.  Builder, product-manager and
auto-documentation wrap the call in a tenacity decorator
`retry(wait=wait_exponential(multiplier=1, min=4, max=10),
stop=stop_after_attempt(3), retry=retry_if_exception_type(ResourceExhausted))`. -/

/-- Exception raised by a raw model invocation. -/
inductive GenError where
  | resourceExhausted (msg : String)
  | other (msg : String)

/-- Exception text (Python `str(e)`). -/
def GenError.text : GenError → String
  | .resourceExhausted m => m
  | .other m => m

/-- One raw model response: `hasParts` models `response.parts` being
non-empty, `text` models `response.text`. -/
structure GenResponse where
  hasParts : Bool
  text : String

/-- The generative model, as the outcome of the i-th raw invocation
(counted across a whole run). -/
abbrev Model := Nat → Except GenError GenResponse

/-- tenacity `wait_exponential(multiplier, min, max)`: the sleep after the
`attemptNo`-th failed attempt, `multiplier * 2 ^ (attemptNo - 1)` clamped
into `[mn, mx]` (time units). -/
def wait_exponential (multiplier mn mx attemptNo : Nat) : Nat :=
  min mx (max mn (multiplier * 2 ^ (attemptNo - 1)))

/-- Outcome of `_generate_content_with_retry`: a response, a tenacity
`RetryError` after the attempt cap was reached on the rate-limit kind, or
an immediately re-raised exception of any other kind. -/
inductive RetryOutcome where
  | ok (r : GenResponse)
  | retryError (last : GenError)
  | raised (e : GenError)

/-- The tenacity retry driver: starting at raw invocation `idx` and
attempt number `attemptNo`, with `remaining` attempts allowed, return the
outcome, how many raw invocations were made, and the backoff sleeps
performed.  Only `ResourceExhausted` is retried; after the last allowed
attempt fails with it, a `RetryError` is raised (tenacity default
`reraise=False`), which is NOT itself a `ResourceExhausted`. -/
def retryGo (call : Model) (idx attemptNo : Nat) : Nat → RetryOutcome × Nat × List Nat
  | 0 => (.retryError (.resourceExhausted ""), 0, [])
  | 1 =>
    match call idx with
    | .ok r => (.ok r, 1, [])
    | .error (.other m) => (.raised (.other m), 1, [])
    | .error (.resourceExhausted m) => (.retryError (.resourceExhausted m), 1, [])
  | r + 2 =>
    match call idx with
    | .ok resp => (.ok resp, 1, [])
    | .error (.other m) => (.raised (.other m), 1, [])
    | .error (.resourceExhausted _) =>
      let rest := retryGo call (idx + 1) (attemptNo + 1) (r + 1)
      (rest.1, rest.2.1 + 1, wait_exponential 1 4 10 attemptNo :: rest.2.2)

/-- `_generate_content_with_retry`, `stop_after_attempt(3)`: at most 3 raw
invocations, beginning at invocation index `idx`. -/
def retryCall (call : Model) (idx : Nat) : RetryOutcome × Nat × List Nat :=
  retryGo call idx 1 3

/-! ## The agent loop -/

/-- A tool registry entry: name, description shown to the model, and the
capability itself (which may raise, carrying a message). -/
abbrev ToolReg := List (String × String × (Json → Except String String))

/-- `_format_tool_descriptions`. -/
def format_tool_descriptions (tools : ToolReg) : String :=
  String.intercalate "\n" (tools.map (fun t => "- " ++ t.1 ++ ": " ++ t.2.1))

/-- Registry lookup (`self.tools[tool_name]["func"]`). -/
def toolFunc (tools : ToolReg) (name : String) : Option (Json → Except String String) :=
  (tools.find? (fun t => t.1 == name)).map (fun t => t.2.2)

/-- What one loop round does after the final-answer parse failed:
execute a registered tool (recording its output or its caught failure),
fall through to free-text accumulation, or raise (uncaught
`AttributeError` out of `_parse_tool_code`). -/
inductive RoundAction where
  | raiseErr (msg : String)
  | toolOk (name output : String)
  | toolErr (name err : String)
  | freeText

/-- The round classification implemented by the shared loop body:
`tool_name, tool_params = self._parse_tool_code(response_text)` followed
by `if tool_name and tool_name in self.tools:` (truthiness, then
registry membership — a non-string or empty name falls through), the tool
call being wrapped in `try/except Exception`. -/
def classifyRound (decode : String → Except String Json) (tools : ToolReg) (text : String) :
    RoundAction :=
  match parse_tool_code decode text with
  | .error m => .raiseErr m
  | .ok (some (Json.str s), some params) =>
    if s == "" then .freeText
    else
      match toolFunc tools s with
      | some f =>
        match f params with
        | .ok out => .toolOk s out
        | .error e => .toolErr s e
      | none => .freeText
  | .ok _ => .freeText

/-- The conversation segment a non-terminating round appends to
`current_prompt`. -/
def roundSeg (text : String) : RoundAction → String
  | .toolOk name out => "\n\nTool Output for " ++ name ++ ":\n" ++ out ++ "\n\n"
  | .toolErr name err => "\n\nTool Error for " ++ name ++ ": " ++ err ++ "\n\n"
  | _ => "\n\nLLM Thought/Response:\n" ++ text ++ "\n\n"

/-- The tools executed by a round (a tool that raised was still executed). -/
def roundTool : RoundAction → List String
  | .toolOk n _ => [n]
  | .toolErr n _ => [n]
  | _ => []

/-- An uncaught Python exception escaping an agent entry point. -/
inductive PyExc where
  | uncaught (e : GenError)
  | pyError (msg : String)

/-- What a run produced: the returned value (or the uncaught exception),
the number of raw model invocations, the names of the executed tools in
order, and the prompt submitted to the model at each round. -/
structure RunTrace where
  result : Except PyExc Json
  rawCalls : Nat
  toolsRun : List String
  prompts : List String

/-- The dict returned when `ReviewerAgent`, `QAAgent`,
`ImpactAnalyzerAgent` or `ConfidenceMergeControllerAgent` exhausts its
iteration bound: status, agent-specific message, and the raw text of the
last model response. -/
def agent_exhausted_result (msg lastText : String) : Json :=
  Json.obj [("status", Json.str "failure"),
            ("message", Json.str msg),
            ("raw_response", Json.str lastText)]

/-- The dict returned when `BuilderAgent.run` exhausts its iteration
bound.  Unlike the other agents it carries no `raw_response` field. -/
def builder_exhausted_result : Json :=
  Json.obj [("status", Json.str "failure"),
            ("message", Json.str "Builder Agent reached max iterations without providing a final answer."),
            ("local_changes_made", Json.bool false)]

/-- The dict `BuilderAgent.run` returns from its `except` clauses around
the model call. -/
def builder_failure_result (msg : String) : Json :=
  Json.obj [("status", Json.str "failure"),
            ("message", Json.str msg),
            ("local_changes_made", Json.bool false)]

/-- Text of a tenacity `RetryError` (`str(e)` of the wrapper, not of the
underlying `ResourceExhausted`). -/
def retryErrorText (e : GenError) : String :=
  "RetryError: " ++ GenError.text e

/-- The shared loop of `ReviewerAgent.run_review`, `QAAgent.run_qa`,
`ImpactAnalyzerAgent.run_analysis` and
`ConfidenceMergeControllerAgent.run_merge_decision`:
`response = self.llm.generate_content(current_prompt)` — NOT wrapped in
`try/except`, so a model failure escapes the entry point —
then final-answer parse (Python truthiness), then tool dispatch or
free-text accumulation, up to `max_iterations = 10` rounds. -/
def plainAgentLoop (decode : String → Except String Json) (tools : ToolReg) (model : Model)
    (exhaustMsg : String) : Nat → Nat → String → String → RunTrace
  | 0, _, _, lastText =>
    { result := .ok (agent_exhausted_result exhaustMsg lastText),
      rawCalls := 0, toolsRun := [], prompts := [] }
  | fuel + 1, idx, prompt, _ =>
    match model idx with
    | .error e =>
      { result := .error (.uncaught e), rawCalls := 1, toolsRun := [], prompts := [prompt] }
    | .ok resp =>
      let text := resp.text
      match (parse_final_answer decode text).filter Json.truthy with
      | some fa =>
        { result := .ok fa, rawCalls := 1, toolsRun := [], prompts := [prompt] }
      | none =>
        match classifyRound decode tools text with
        | .raiseErr m =>
          { result := .error (.pyError m), rawCalls := 1, toolsRun := [], prompts := [prompt] }
        | act =>
          let rest := plainAgentLoop decode tools model exhaustMsg fuel (idx + 1)
            (prompt ++ roundSeg text act) text
          { result := rest.result, rawCalls := 1 + rest.rawCalls,
            toolsRun := roundTool act ++ rest.toolsRun, prompts := prompt :: rest.prompts }

/-- `BuilderAgent.run`, lines 188-197: on a truthy final answer, delete
the keys `pr_url` and `pr_number` when present (each guarded by a
Python `in` test) and return the rest. -/
def builderFinalize (fa : Json) : Except String Json := do
  let hasUrl ← fa.pyContains "pr_url"
  let fa1 ← if hasUrl then fa.pyDelKey "pr_url" else pure fa
  let hasNum ← fa1.pyContains "pr_number"
  if hasNum then fa1.pyDelKey "pr_number" else pure fa1

/-- The loop of `BuilderAgent.run`: per round, the model is called through
the tenacity retry wrapper inside `try/except` (a `ResourceExhausted`
would map to the quota message; a `RetryError` — the wrapper raised after
retry exhaustion, which is not a `ResourceExhausted` — and every other
exception map to the unexpected-error message), the response text is
empty when `response.parts` is empty, a truthy final answer is cleaned of
PR keys and returned, and otherwise tool dispatch / free-text
accumulation continues, up to `max_iterations = 10` rounds. -/
def builderLoop (decode : String → Except String Json) (tools : ToolReg) (model : Model) :
    Nat → Nat → String → RunTrace
  | 0, _, _ =>
    { result := .ok builder_exhausted_result, rawCalls := 0, toolsRun := [], prompts := [] }
  | fuel + 1, idx, prompt =>
    match retryCall model idx with
    | (.retryError e, used, _) =>
      { result := .ok (builder_failure_result
          ("Builder Agent failed due to an unexpected error: " ++ retryErrorText e)),
        rawCalls := used, toolsRun := [], prompts := [prompt] }
    | (.raised (.resourceExhausted m), used, _) =>
      { result := .ok (builder_failure_result
          ("Builder Agent failed due to Gemini API quota exhaustion: " ++ m)),
        rawCalls := used, toolsRun := [], prompts := [prompt] }
    | (.raised (.other m), used, _) =>
      { result := .ok (builder_failure_result
          ("Builder Agent failed due to an unexpected error: " ++ m)),
        rawCalls := used, toolsRun := [], prompts := [prompt] }
    | (.ok resp, used, _) =>
      let text := cond resp.hasParts resp.text ""
      match (parse_final_answer decode text).filter Json.truthy with
      | some fa =>
        match builderFinalize fa with
        | .ok cleaned =>
          { result := .ok cleaned, rawCalls := used, toolsRun := [], prompts := [prompt] }
        | .error m =>
          { result := .error (.pyError m), rawCalls := used, toolsRun := [], prompts := [prompt] }
      | none =>
        match classifyRound decode tools text with
        | .raiseErr m =>
          { result := .error (.pyError m), rawCalls := used, toolsRun := [], prompts := [prompt] }
        | act =>
          let rest := builderLoop decode tools model fuel (idx + used)
            (prompt ++ roundSeg text act)
          { result := rest.result, rawCalls := used + rest.rawCalls,
            toolsRun := roundTool act ++ rest.toolsRun, prompts := prompt :: rest.prompts }

/-- `BuilderAgent.run` after the initial prompt has been rendered from
the template, feature ticket and repository context (`prompt0`). -/
def builder_run (decode : String → Except String Json) (tools : ToolReg) (model : Model)
    (prompt0 : String) : RunTrace :=
  builderLoop decode tools model 10 0 prompt0

/-- `ReviewerAgent.run_review` after the initial prompt has been rendered
from the template, PR details and diff (`prompt0`). -/
def run_review (decode : String → Except String Json) (tools : ToolReg) (model : Model)
    (prompt0 : String) : RunTrace :=
  plainAgentLoop decode tools model
    "Reviewer Agent reached max iterations without providing a final answer." 10 0 prompt0 ""

/-- The message of the `NameError` raised inside
`ProductManagerAgent.process_comment`: its first `except` clause names
`google.api_core.exceptions.ResourceExhausted`, but the module binds only
`genai` (`import google.generativeai as genai`), so evaluating the clause
while any exception is in flight raises `NameError` in place of the
original exception. -/
def nameErrorGoogle : String := "NameError: name \x27google\x27 is not defined"

/-- The loop of `ProductManagerAgent.process_comment`:
`max_iterations = 3`; the model is called through the tenacity retry
wrapper; any exception escaping the wrapper triggers the broken `except`
clause, so a `NameError` escapes the entry point; an empty response
appends an error note and continues; a `<json_output>` block that decodes
returns success; a decode failure or missing block appends an error note
(the decode-failure note embeds the decoder message and the offending
text) and continues. -/
def pmLoop (decode : String → Except String Json) (model : Model) :
    Nat → Nat → String → RunTrace
  | 0, _, _ =>
    { result := .ok (Json.obj [("status", Json.str "failure"),
        ("message", Json.str "Product Manager Agent failed to generate valid JSON after multiple attempts.")]),
      rawCalls := 0, toolsRun := [], prompts := [] }
  | fuel + 1, idx, prompt =>
    match retryCall model idx with
    | (.retryError _, used, _) =>
      { result := .error (.pyError nameErrorGoogle), rawCalls := used, toolsRun := [], prompts := [prompt] }
    | (.raised _, used, _) =>
      { result := .error (.pyError nameErrorGoogle), rawCalls := used, toolsRun := [], prompts := [prompt] }
    | (.ok resp, used, _) =>
      match resp.hasParts with
      | true =>
        let text := resp.text
        match extractBlock "<json_output>" "</json_output>" text with
        | some inner =>
          match decode (pyStrip inner) with
          | .ok structured =>
            { result := .ok (Json.obj [("status", Json.str "success"), ("output", structured)]),
              rawCalls := used, toolsRun := [], prompts := [prompt] }
          | .error e =>
            let rest := pmLoop decode model fuel (idx + used)
              (prompt ++ "\n\nError: Invalid JSON format. Please ensure the output is valid JSON. Error: "
                ++ e ++ "\nInvalid JSON: " ++ pyStrip inner)
            { result := rest.result, rawCalls := used + rest.rawCalls,
              toolsRun := rest.toolsRun, prompts := prompt :: rest.prompts }
        | none =>
          let rest := pmLoop decode model fuel (idx + used)
            (prompt ++ "\n\nError: JSON output not enclosed in <json_output> tags. Please use the specified format.")
          { result := rest.result, rawCalls := used + rest.rawCalls,
            toolsRun := rest.toolsRun, prompts := prompt :: rest.prompts }
      | false =>
        let rest := pmLoop decode model fuel (idx + used)
          (prompt ++ "\n\nError: LLM did not return any text. Please provide a valid JSON output.")
        { result := rest.result, rawCalls := used + rest.rawCalls,
          toolsRun := rest.toolsRun, prompts := prompt :: rest.prompts }

/-- `ProductManagerAgent.process_comment` after the initial prompt has
been rendered from the template and the user comment (`prompt0`). -/
def process_comment (decode : String → Except String Json) (model : Model)
    (prompt0 : String) : RunTrace :=
  pmLoop decode model 3 0 prompt0

/-! ## Python `str.format` and the merge-controller prompt -/

/-- One pass of Python `str.format`: a doubled brace is an escaped literal
brace, `\x7bname\x7d` is replaced by the bound value, and everything else
is copied.  Fuel-driven (one unit per step, each step consumes at least
one character, so `text.length` fuel always suffices). -/
def pyFormatGo (vals : List (String × String)) : Nat → List Char → List Char
  | 0, _ => []
  | fuel + 1, cs =>
    match cs with
    | [] => []
    | '\x7b' :: '\x7b' :: rest => '\x7b' :: pyFormatGo vals fuel rest
    | '\x7d' :: '\x7d' :: rest => '\x7d' :: pyFormatGo vals fuel rest
    | '\x7b' :: rest =>
      let name := (rest.takeWhile (fun c => !(c == '\x7d'))).asString
      let rest2 := (rest.dropWhile (fun c => !(c == '\x7d'))).drop 1
      (((vals.find? (fun p => p.1 == name)).map (fun p => p.2)).getD "").toList
        ++ pyFormatGo vals fuel rest2
    | c :: rest => c :: pyFormatGo vals fuel rest

/-- Python `template.format(**vals)`. -/
def pyFormat (template : String) (vals : List (String × String)) : String :=
  (pyFormatGo vals template.length template.toList).asString

/-- `MERGE_CONTROLLER_PROMPT_TEMPLATE`
(src/autonomous_devops/agents/confidence_merge_controller_agent.py,
lines 17-70), the prompt that instructs the model to compute the
confidence formula and merge when it exceeds 0.85. -/
def MERGE_CONTROLLER_PROMPT_TEMPLATE : String :=
  "You are the Confidence & Merge Controller Agent (A5). Your task is to collect results from other agents, calculate a confidence level, and decide whether to automatically merge a Pull Request.\n"
  ++ "You have access to the following tools:\n"
  ++ "\x7btool_descriptions\x7d\n"
  ++ "\n"
  ++ "Here are the collected results:\n"
  ++ "- Test Results (from Builder A1): \x7btest_results\x7d\n"
  ++ "- Review Feedback (from Reviewer A2): \x7breview_feedback\x7d\n"
  ++ "- QA Report (from QA Agent A4): \x7bqa_report\x7d\n"
  ++ "- Risk Score (from Impact Analyzer A6): \x7brisk_score\x7d\n"
  ++ "\n"
  ++ "Here are the details of the Pull Request:\n"
  ++ "\x7bpr_details\x7d\n"
  ++ "\n"
  ++ "Follow these steps:\n"
  ++ "1. Parse the `test_results`, `review_feedback`, `qa_report`, and `risk_score`.\n"
  ++ "2. Calculate the confidence level using the formula:\n"
  ++ "   `confidence = (tests_pass * 0.4) + (review_score * 0.3) + (qa_pass * 0.2) - ((risk_score / 10) * 0.3)`\n"
  ++ "   - `tests_pass`: 1 if tests passed, 0 otherwise.\n"
  ++ "   - `review_score`: Assume 1 for approved, 0 for not approved (can be refined later).\n"
  ++ "   - `qa_pass`: 1 if no UI bugs detected, 0 otherwise.\n"
  ++ "   - `risk_score`: The estimated risk score from A6 (0-10).\n"
  ++ "3. If `confidence > 0.85`, then merge the PR automatically using `GitHub_MergePR`.\n"
  ++ "4. Log the merge decision (or rejection) and the calculated confidence to MongoDB using `MongoDB_InsertLog` with collection \x27merge_cycles\x27. The log entry should include:\n"
  ++ "    - `pr_number`\n"
  ++ "    - `confidence_score`\n"
  ++ "    - `merge_decision` (merged/rejected)\n"
  ++ "    - `reason` (e.g., \"Confidence above threshold\", \"Low confidence\")\n"
  ++ "    - `explainable_merge_log` (human-readable summary)\n"
  ++ "\n"
  ++ "You must respond in a specific format.\n"
  ++ "To use a tool, respond with:\n"
  ++ "<tool_code>\n"
  ++ "\x7b\x7b\n"
  ++ "  \"tool_name\": \"ToolName\",\n"
  ++ "  \"parameters\": \x7b\x7b\n"
  ++ "    \"param1\": \"value1\",\n"
  ++ "    \"param2\": \"value2\"\n"
  ++ "  \x7d\x7d\n"
  ++ "\x7d\x7d\n"
  ++ "</tool_code>\n"
  ++ "\n"
  ++ "To provide your final answer, respond with a JSON object:\n"
  ++ "<final_answer>\n"
  ++ "\x7b\x7b\n"
  ++ "  \"pr_number\": \"...\",\n"
  ++ "  \"confidence_score\": \"...\",\n"
  ++ "  \"merge_decision\": \"merged\" | \"rejected\",\n"
  ++ "  \"reason\": \"...\",\n"
  ++ "  \"explainable_merge_log\": \"...\"\n"
  ++ "\x7d\x7d\n"
  ++ "</final_answer>\n"
  ++ "\n"
  ++ "Begin!\n"

/-- The tool registry built in `ConfidenceMergeControllerAgent.__init__`
(the capabilities themselves are external collaborators, passed in). -/
def mergeTools (commit_file insert_log merge_pr : Json → Except String String) : ToolReg :=
  [("GitHub_CreateCommit",
    ("Commits changes to a file in the GitHub repository. Input: file_path, content, message, branch (optional, defaults to \x27main\x27).",
     commit_file)),
   ("MongoDB_InsertLog",
    ("Inserts a log entry into a MongoDB collection. Input: collection_name, log_entry (dict).",
     insert_log)),
   ("GitHub_MergePR",
    ("Merges a Pull Request. Input: pr_number (int), commit_title (str).",
     merge_pr))]

/-- `ConfidenceMergeControllerAgent.run_merge_decision` for stringly
inputs (dict inputs are first serialized by `json.dumps`, which is the
same string-insertion path): render the prompt template with the
collected results and the risk score, then drive the shared agent loop.
The confidence computation itself is delegated to the model through the
prompt text. -/
def run_merge_decision (decode : String → Except String Json)
    (commit_file insert_log merge_pr : Json → Except String String) (model : Model)
    (test_results review_feedback qa_report : String) (risk_score : ℚ)
    (pr_details : String) : RunTrace :=
  let tools := mergeTools commit_file insert_log merge_pr
  plainAgentLoop decode tools model
    "Confidence & Merge Controller Agent reached max iterations without providing a final answer."
    10 0
    (pyFormat MERGE_CONTROLLER_PROMPT_TEMPLATE
      [("tool_descriptions", format_tool_descriptions tools),
       ("test_results", test_results),
       ("review_feedback", review_feedback),
       ("qa_report", qa_report),
       ("risk_score", toString risk_score),
       ("pr_details", pr_details)])
    ""

/-! ## The confidence formula

The formula appears in the source only as prompt text (see
`MERGE_CONTROLLER_PROMPT_TEMPLATE`, step 2): the model, not the code, is
asked to evaluate it.  `confidence` formalizes that stated formula
exactly, over exact rationals. -/

/-- `confidence = (tests_pass * 0.4) + (review_score * 0.3) +
(qa_pass * 0.2) - ((risk_score / 10) * 0.3)`. -/
def confidence (tests_pass review_score qa_pass risk_score : ℚ) : ℚ :=
  tests_pass * 0.4 + review_score * 0.3 + qa_pass * 0.2 - risk_score / 10 * 0.3

/-- The decision rule stated in the prompt (step 3): merge automatically
iff `confidence > 0.85`. -/
def auto_merge_decision (c : ℚ) : Bool :=
  decide ((0.85 : ℚ) < c)

/-! ## Branch-name slugification (orchestrator.py lines 56-58, duplicated
in builder_agent.py lines 141-143) -/

/-- Python `str.lower()` (ASCII range; the subsequent sanitization maps
every non-ASCII character to a dash in any case). -/
def py_lower (s : String) : String :=
  (s.toList.map Char.toLower).asString

/-- Python `title.replace(" ", "-")`. -/
def py_replace_space_dash (s : String) : String :=
  (s.toList.map (fun c => if c == ' ' then '-' else c)).asString

/-- The character class kept by the sanitizing regex `[^a-zA-Z0-9\-_]`
(its complement is replaced). -/
def isAllowedBranchChar (c : Char) : Bool :=
  ('a' ≤ c && c ≤ 'z') || ('A' ≤ c && c ≤ 'Z') || ('0' ≤ c && c ≤ '9') || c == '-' || c == '_'

/-- `re.sub(r'[^a-zA-Z0-9\-_]', '-', s)`: each disallowed character is
replaced by one dash. -/
def sanitizeBranch (s : String) : String :=
  (s.toList.map (fun c => if isAllowedBranchChar c then c else '-')).asString

/-- The feature branch name:
`feature/{feature_id}-{title.replace(" ", "-").lower()}`, sanitized, then
truncated to 100 characters. -/
def feature_branch_name (feature_id title : String) : String :=
  (((sanitizeBranch ("feature/" ++ feature_id ++ "-" ++ py_lower (py_replace_space_dash title))).toList).take 100).asString

/-! ## Pull-request creation (mytools.py, `GithubAPI.create_pr`)

The GitHub host itself is an external collaborator; its state is
modelled as the list of open pull requests and the list of branches of
one repository, with `get_pulls(state="open", head=f"…:{head}")`
filtering the open PRs on the head branch. -/

/-- An open pull request on the host. -/
structure PullRequest where
  number : Nat
  html_url : String
  title : String
  body : String
  head : String
  base : String

/-- The repository state visible to `GithubAPI`. -/
structure RepoState where
  branches : List String
  openPrs : List PullRequest
  nextNumber : Nat

/-- The URL the host assigns to pull request `n`. -/
def prUrl (n : Nat) : String :=
  "https://github.com/Merothiya/Snakes-Ladders-and-Faith/pull/" ++ toString n

/-- `GithubAPI.create_pr`: if an open PR for the head branch already
exists, return its URL and number without creating anything; otherwise
require the head branch to exist (else raise `ValueError`) and create a
fresh PR. -/
def create_pr (repo : RepoState) (title body head base : String) :
    Except String ((String × Nat) × RepoState) :=
  match repo.openPrs.filter (fun pr => pr.head == head) with
  | pr0 :: _ => .ok ((pr0.html_url, pr0.number), repo)
  | [] =>
    if repo.branches.contains head then
      let pr : PullRequest :=
        { number := repo.nextNumber, html_url := prUrl repo.nextNumber,
          title := title, body := body, head := head, base := base }
      .ok ((pr.html_url, pr.number),
           { repo with openPrs := repo.openPrs ++ [pr], nextNumber := repo.nextNumber + 1 })
    else .error ("ValueError: Branch " ++ head ++ " not found in repo.")

/-! ## Concrete stubs used to instantiate the external collaborators in
witnesses and counterexamples -/

/-- A table-driven stand-in for `json.loads`: decodes exactly the listed
texts and fails (with the usual `json.JSONDecodeError` message) on
everything else. -/
def decodeTable (table : List (String × Json)) : String → Except String Json :=
  fun s =>
    match table.find? (fun p => p.1 == s) with
    | some p => .ok p.2
    | none => .error "Expecting value: line 1 column 1 (char 0)"

/-- A one-tool registry whose tool always succeeds. -/
def echoToolReg : ToolReg :=
  [("Echo", ("Echoes its input back. Input: none.", fun _ => .ok "echoed"))]

/-- A host state with one feature branch, no open PRs, next PR number 7. -/
def repoBefore : RepoState :=
  { branches := ["feature-F101-x"], openPrs := [], nextNumber := 7 }

/-- The PR `create_pr` creates on `repoBefore` for head `feature-F101-x`. -/
def prSeven : PullRequest :=
  { number := 7, html_url := prUrl 7, title := "feat(F101): x", body := "body",
    head := "feature-F101-x", base := "main" }

/-- `repoBefore` after the PR has been created. -/
def repoAfter : RepoState :=
  { branches := ["feature-F101-x"], openPrs := [prSeven], nextNumber := 8 }

/-- A model response containing a well-formed final-answer block whose
payload is the falsy empty object, followed by a well-formed tool-call
block naming the registered tool `Echo`. -/
def falsyFinalText : String :=
  "<final_answer>\x7b\x7d</final_answer><tool_code>\x7b\"tool_name\": \"Echo\", \"parameters\": \x7b\x7d\x7d</tool_code>"

/-- Decoder for the two JSON texts occurring in `falsyFinalText`. -/
def falsyFinalDecode : String → Except String Json :=
  decodeTable
    [("\x7b\x7d", Json.obj []),
     ("\x7b\"tool_name\": \"Echo\", \"parameters\": \x7b\x7d\x7d",
      Json.obj [("tool_name", Json.str "Echo"), ("parameters", Json.obj [])])]

/-- A model stub answering `falsyFinalText` first and unrecognized text
afterwards. -/
def falsyFinalModel : Model :=
  fun i => if i = 0 then .ok ⟨true, falsyFinalText⟩ else .ok ⟨true, "continuing"⟩

/-- A model response containing a truthy well-formed final-answer block
and a well-formed tool-call block naming the registered tool `Echo`. -/
def priorityText : String :=
  "<final_answer>\x7b\"status\": \"success\"\x7d</final_answer>\n<tool_code>\x7b\"tool_name\": \"Echo\", \"parameters\": \x7b\x7d\x7d</tool_code>"

/-- Decoder for the two JSON texts occurring in `priorityText`. -/
def priorityDecode : String → Except String Json :=
  decodeTable
    [("\x7b\"status\": \"success\"\x7d", Json.obj [("status", Json.str "success")]),
     ("\x7b\"tool_name\": \"Echo\", \"parameters\": \x7b\x7d\x7d",
      Json.obj [("tool_name", Json.str "Echo"), ("parameters", Json.obj [])])]

/-- A final answer whose JSON carries `pr_url` and `pr_number` keys
alongside ordinary ones. -/
def prKeysText : String :=
  "<final_answer>\x7b\"status\": \"success\", \"local_changes_made\": true, \"pr_url\": \"https://github.com/Merothiya/Snakes-Ladders-and-Faith/pull/7\", \"pr_number\": 7\x7d</final_answer>"

/-- Decoder for the JSON text occurring in `prKeysText`. -/
def prKeysDecode : String → Except String Json :=
  decodeTable
    [("\x7b\"status\": \"success\", \"local_changes_made\": true, \"pr_url\": \"https://github.com/Merothiya/Snakes-Ladders-and-Faith/pull/7\", \"pr_number\": 7\x7d",
      Json.obj [("status", Json.str "success"), ("local_changes_made", Json.bool true),
        ("pr_url", Json.str "https://github.com/Merothiya/Snakes-Ladders-and-Faith/pull/7"),
        ("pr_number", Json.num 7)])]

/-! # Theorems -/

/-- A successful raw invocation is returned by the retry wrapper at once:
one attempt, no sleeps. -/
theorem retryCall_ok (call : Model) (idx : Nat) (r : GenResponse) (h : call idx = .ok r) :
    retryCall call idx = (.ok r, 1, []) := by
  simp [retryCall, retryGo, h]

/-- The retry wrapper makes at most `remaining` raw invocations. -/
theorem retryGo_attempts_le (call : Model) :
    ∀ n idx a, (retryGo call idx a n).2.1 ≤ n
  | 0, idx, a => by simp [retryGo]
  | 1, idx, a => by
    cases h : call idx with
    | ok r => simp [retryGo, h]
    | error e =>
      cases e with
      | resourceExhausted m => simp [retryGo, h]
      | other m => simp [retryGo, h]
  | n + 2, idx, a => by
    cases h : call idx with
    | ok r => simp [retryGo, h]
    | error e =>
      cases e with
      | resourceExhausted m =>
        have ih := retryGo_attempts_le call (n + 1) (idx + 1) (a + 1)
        simp only [retryGo, h]
        omega
      | other m => simp [retryGo, h]

/-- If the retry wrapper returned a response, some raw invocation
produced it. -/
theorem retryGo_ok_exists (call : Model) :
    ∀ n idx a resp, (retryGo call idx a n).1 = .ok resp → ∃ j, call j = .ok resp
  | 0, idx, a, resp => by simp [retryGo]
  | 1, idx, a, resp => by
    cases h : call idx with
    | ok r => simp [retryGo, h]; rintro rfl; exact ⟨idx, h⟩
    | error e =>
      cases e with
      | resourceExhausted m => simp [retryGo, h]
      | other m => simp [retryGo, h]
  | n + 2, idx, a, resp => by
    cases h : call idx with
    | ok r => simp [retryGo, h]; rintro rfl; exact ⟨idx, h⟩
    | error e =>
      cases e with
      | resourceExhausted m =>
        simp only [retryGo, h]
        exact retryGo_ok_exists call (n + 1) (idx + 1) (a + 1) resp
      | other m => simp [retryGo, h]

/-- Claim C6: the retryable model caller retries only on the designated
resource-exhausted (rate-limited) failure kind, with exponential backoff
of base multiplier 1 clamped between floor 4 and ceiling 10 time units,
for at most 3 raw invocations in total; a model stub that always raises
the rate-limited kind is invoked exactly 3 times (sleeping 4 and 4 units)
before the distinguishable quota-exhausted failure (the tenacity
`RetryError`) is surfaced; a successful invocation and any other failure
kind return/propagate immediately without retry. -/
theorem retry_caller_spec :
    (∀ call idx, (retryCall call idx).2.1 ≤ 3)
    ∧ (∀ m idx, retryCall (fun _ => .error (.resourceExhausted m)) idx
        = (.retryError (.resourceExhausted m), 3,
           [wait_exponential 1 4 10 1, wait_exponential 1 4 10 2]))
    ∧ wait_exponential 1 4 10 1 = 4 ∧ wait_exponential 1 4 10 2 = 4
    ∧ (∀ a, 4 ≤ wait_exponential 1 4 10 a ∧ wait_exponential 1 4 10 a ≤ 10)
    ∧ (∀ call idx m, call idx = .error (.other m) →
        retryCall call idx = (.raised (.other m), 1, []))
    ∧ (∀ call idx r, call idx = .ok r → retryCall call idx = (.ok r, 1, [])) := by
  refine ⟨fun call idx => retryGo_attempts_le call 3 idx 1,
          fun m idx => by simp [retryCall, retryGo],
          by simp [wait_exponential], by simp [wait_exponential],
          fun a => ?_,
          fun call idx m h => by simp [retryCall, retryGo, h],
          fun call idx r h => retryCall_ok call idx r h⟩
  unfold wait_exponential
  omega

/-- Witness for C6 at concrete stubs: the always-rate-limited stub is
invoked exactly 3 times and surfaces a `RetryError`; an other-kind stub
propagates after 1 invocation. -/
theorem retry_caller_spec_witness :
    retryCall (fun _ => .error (.resourceExhausted "429 quota exceeded")) 0
      = (.retryError (.resourceExhausted "429 quota exceeded"), 3,
         [wait_exponential 1 4 10 1, wait_exponential 1 4 10 2])
    ∧ retryCall (fun _ => .error (.other "500 internal error")) 0
      = (.raised (.other "500 internal error"), 1, [])
    ∧ retryCall (fun _ => .ok ⟨true, "hello"⟩) 0 = (.ok ⟨true, "hello"⟩, 1, []) :=
  ⟨retry_caller_spec.2.1 "429 quota exceeded" 0,
   retry_caller_spec.2.2.2.2.2.1 (fun _ => .error (.other "500 internal error")) 0
     "500 internal error" rfl,
   retry_caller_spec.2.2.2.2.2.2 (fun _ => .ok ⟨true, "hello"⟩) 0 ⟨true, "hello"⟩ rfl⟩

/-- Every character the sanitizing pass emits is in the kept class. -/
theorem sanitizeBranch_allowed (s : String) :
    (sanitizeBranch s).toList.all isAllowedBranchChar = true := by
  simp only [sanitizeBranch, List.all_eq_true]
  intro c hc
  have hc' : c ∈ s.toList.map (fun c => if isAllowedBranchChar c then c else '-') := hc
  rcases List.mem_map.mp hc' with ⟨c0, _, rfl⟩
  by_cases h : isAllowedBranchChar c0
  · rw [if_pos h]; exact h
  · rw [if_neg h]; decide

/-- Claim C7: the feature branch name is derived from
`feature/{feature_id}-{title}` with the title lower-cased and spaces
replaced by dashes, every character outside `[a-zA-Z0-9\-_]` replaced by
a dash, and the result truncated to 100 characters; in particular
feature_id `F101` with title `Implement Light/Dark Mode Toggle!` yields
`feature-F101-implement-light-dark-mode-toggle-`. -/
theorem branch_name_slugification :
    feature_branch_name "F101" "Implement Light/Dark Mode Toggle!"
      = "feature-F101-implement-light-dark-mode-toggle-"
    ∧ (∀ feature_id title,
        feature_branch_name feature_id title
          = (((sanitizeBranch ("feature/" ++ feature_id ++ "-"
              ++ py_lower (py_replace_space_dash title))).toList).take 100).asString)
    ∧ (∀ feature_id title, (feature_branch_name feature_id title).length ≤ 100)
    ∧ (∀ feature_id title,
        (feature_branch_name feature_id title).toList.all isAllowedBranchChar = true) := by
  refine ⟨by decide, fun fid t => rfl, fun fid t => ?_, fun fid t => ?_⟩
  · show (List.asString _).length ≤ 100
    rw [show ∀ l : List Char, (List.asString l).length = l.length from fun l => rfl,
        List.length_take]
    omega
  · simp only [feature_branch_name, List.all_eq_true]
    intro c hc
    have hc' : c ∈ ((sanitizeBranch ("feature/" ++ fid ++ "-"
        ++ py_lower (py_replace_space_dash t))).toList).take 100 := hc
    have hmem := List.mem_of_mem_take hc'
    exact List.all_eq_true.mp (sanitizeBranch_allowed _) c hmem

/-- Counterexample to claim C1 as stated: the Merge-Controller agent does
not compute the merge decision as a pure function of the numeric inputs —
`run_merge_decision` only renders the formula into the prompt and returns
whatever final answer the model produces.  Here every input matches the
claim with risk_score = 10, so the formula gives confidence 0.6 and the
claim demands a reject, yet the run returns the decision `merged` taken
from the model text. -/
theorem merge_decision_not_pure_function :
    (run_merge_decision
      (decodeTable [("\x7b\"merge_decision\": \"merged\"\x7d",
        Json.obj [("merge_decision", Json.str "merged")])])
      (fun _ => .ok "committed") (fun _ => .ok "logged") (fun _ => .ok "merged")
      (fun _ => .ok ⟨true, "<final_answer>\x7b\"merge_decision\": \"merged\"\x7d</final_answer>"⟩)
      "\x7b\"success\": True\x7d" "\x7b\"review_summary\": \"Approved\"\x7d"
      "\x7b\"ui_bugs_detected\": False\x7d" 10
      "\x7b\"id\": 1\x7d").result
      = .ok (Json.obj [("merge_decision", Json.str "merged")])
    ∧ confidence 1 1 1 10 = 0.6
    ∧ auto_merge_decision (confidence 1 1 1 10) = false := by
  refine ⟨rfl, by norm_num [confidence], ?_⟩
  have h : confidence 1 1 1 10 = 0.6 := by norm_num [confidence]
  rw [h]
  simp only [auto_merge_decision, decide_eq_false_iff_not]
  norm_num

/-- Claim C1 (amended): the confidence formula — stated in the
merge-controller prompt template and evaluated by the model, not by
code — is `0.4*tests_pass + 0.3*review_score + 0.2*qa_pass -
0.3*(risk_score/10)` with merge iff confidence > 0.85; it is a
deterministic pure function giving 0.9 (merge) at
tests=review=qa=1, risk=0, giving 0.6 (reject) at risk=10 with the same
other inputs, and giving at most 0.5 (reject) whenever tests_pass = 0,
for all review_score, qa_pass in [0,1] and risk_score in [0,10]. -/
theorem confidence_formula_spec :
    confidence 1 1 1 0 = 0.9
    ∧ auto_merge_decision (confidence 1 1 1 0) = true
    ∧ confidence 1 1 1 10 = 0.6
    ∧ auto_merge_decision (confidence 1 1 1 10) = false
    ∧ (∀ review_score qa_pass risk_score : ℚ,
        0 ≤ review_score → review_score ≤ 1 → 0 ≤ qa_pass → qa_pass ≤ 1 →
        0 ≤ risk_score → risk_score ≤ 10 →
        confidence 0 review_score qa_pass risk_score ≤ 0.5
        ∧ auto_merge_decision (confidence 0 review_score qa_pass risk_score) = false) := by
  have h09 : confidence 1 1 1 0 = 0.9 := by norm_num [confidence]
  have h06 : confidence 1 1 1 10 = 0.6 := by norm_num [confidence]
  refine ⟨h09, ?_, h06, ?_, ?_⟩
  · rw [h09]; simp only [auto_merge_decision, decide_eq_true_eq]; norm_num
  · rw [h06]; simp only [auto_merge_decision, decide_eq_false_iff_not]; norm_num
  · intro r q k hr0 hr1 hq0 hq1 hk0 hk1
    have hle : confidence 0 r q k ≤ 0.5 := by
      unfold confidence
      nlinarith
    refine ⟨hle, ?_⟩
    simp only [auto_merge_decision, decide_eq_false_iff_not, not_lt]
    calc confidence 0 r q k ≤ 0.5 := hle
      _ ≤ 0.85 := by norm_num

/-- Witness for the amended C1 at a concrete tests_pass = 0 input:
review = qa = 1, risk = 0 gives confidence at most 0.5 and a reject. -/
theorem confidence_formula_spec_witness :
    ((0 : ℚ) ≤ 1 ∧ (1 : ℚ) ≤ 1 ∧ (0 : ℚ) ≤ 0 ∧ (0 : ℚ) ≤ 10)
    ∧ confidence 0 1 1 0 ≤ 0.5
    ∧ auto_merge_decision (confidence 0 1 1 0) = false :=
  ⟨⟨by norm_num, by norm_num, le_refl 0, by norm_num⟩,
   (confidence_formula_spec.2.2.2.2 1 1 0 (by norm_num) (by norm_num) (by norm_num)
      (by norm_num) (le_refl 0) (by norm_num)).1,
   (confidence_formula_spec.2.2.2.2 1 1 0 (by norm_num) (by norm_num) (by norm_num)
      (by norm_num) (le_refl 0) (by norm_num)).2⟩

/-- Claim C9: pull-request creation is idempotent.  If `create_pr`
succeeded, returning `out = (pr_url, pr_number)` and leaving the host in
state `repo2`, then calling it again for the same head branch (any
title/body/base) returns the same `(pr_url, pr_number)` and leaves the
state unchanged — no duplicate pull request is created — and the first
call added at most one PR. -/
theorem create_pr_idempotent (repo : RepoState) (title body head base title2 body2 base2 : String)
    (out : String × Nat) (repo2 : RepoState)
    (h : create_pr repo title body head base = .ok (out, repo2)) :
    create_pr repo2 title2 body2 head base2 = .ok (out, repo2)
    ∧ repo2.openPrs.length ≤ repo.openPrs.length + 1 := by
  unfold create_pr at h ⊢
  rcases hf : repo.openPrs.filter (fun pr => pr.head == head) with _ | ⟨pr0, rest⟩
  · simp only [hf] at h
    by_cases hb : repo.branches.contains head
    · rw [if_pos hb] at h
      simp only [Except.ok.injEq, Prod.mk.injEq] at h
      obtain ⟨hout, hrepo⟩ := h
      subst hrepo
      constructor
      · simp only [List.filter_append, hf, List.nil_append, List.filter_cons,
          List.filter_nil, beq_self_eq_true, if_true]
        rw [← hout]
      · simp
    · rw [if_neg hb] at h
      exact absurd h (by simp)
  · simp only [hf] at h
    simp only [Except.ok.injEq, Prod.mk.injEq] at h
    obtain ⟨hout, hrepo⟩ := h
    subst hrepo
    constructor
    · simp only [hf]
      rw [← hout]
    · omega

/-- Witness for C9: with one branch, no open PRs and next number 7, the
first call creates PR 7 and the second call returns the same URL and
number without changing the state. -/
theorem create_pr_idempotent_witness :
    create_pr repoBefore "feat(F101): x" "body" "feature-F101-x" "main"
      = .ok ((prUrl 7, 7), repoAfter)
    ∧ create_pr repoAfter "feat(F101): x again" "body2" "feature-F101-x" "main"
      = .ok ((prUrl 7, 7), repoAfter) :=
  ⟨rfl,
   (create_pr_idempotent repoBefore "feat(F101): x" "body" "feature-F101-x" "main"
      "feat(F101): x again" "body2" "main" (prUrl 7, 7) repoAfter rfl).1⟩

/-- Counterexample to claim C4 as stated: `_parse_tool_code` is not
total.  When the enclosed text is valid JSON but not an object — here the
array `[1]` — the `tool_call.get("tool_name")` call raises an
`AttributeError` that the `except json.JSONDecodeError` clause does not
catch, so the parse raises instead of returning an absent value. -/
theorem parse_tool_code_raises_on_nonobject :
    parse_tool_code (decodeTable [("[1]", Json.arr [Json.num 1])])
      "<tool_code>[1]</tool_code>"
      = .error "AttributeError: object has no attribute get" := by
  rfl

/-- Claim C4 (amended): in the two cases the claim lists — the delimiter
pair is missing, or the enclosed stripped text does not JSON-decode —
both parse functions return an absent value rather than raising
(`_parse_final_answer` gives `none`, `_parse_tool_code` gives
`(None, None)`), and the loop treats any round whose tool parse is
`(None, None)` as free-text accumulation; `_parse_final_answer` is total,
but `_parse_tool_code` raises an `AttributeError` when the enclosed text
decodes to a non-object value. -/
theorem response_parsing_leniency :
    (∀ decode text, extractBlock "<final_answer>" "</final_answer>" text = none →
        parse_final_answer decode text = none)
    ∧ (∀ decode text inner err,
        extractBlock "<final_answer>" "</final_answer>" text = some inner →
        decode (pyStrip inner) = .error err →
        parse_final_answer decode text = none)
    ∧ (∀ decode text, extractBlock "<tool_code>" "</tool_code>" text = none →
        parse_tool_code decode text = .ok (none, none))
    ∧ (∀ decode text inner err,
        extractBlock "<tool_code>" "</tool_code>" text = some inner →
        decode (pyStrip inner) = .error err →
        parse_tool_code decode text = .ok (none, none))
    ∧ (∀ decode tools text, parse_tool_code decode text = .ok (none, none) →
        classifyRound decode tools text = .freeText) := by
  refine ⟨fun decode text h => by simp [parse_final_answer, h],
          fun decode text inner err h1 h2 => by simp [parse_final_answer, h1, h2],
          fun decode text h => by simp [parse_tool_code, h],
          fun decode text inner err h1 h2 => by simp [parse_tool_code, h1, h2],
          fun decode tools text h => by simp [classifyRound, h]⟩

/-- Witness for the amended C4: a text with no delimiters and a text with
a malformed (undecodable) tool block both parse to absent values, and the
latter is classified as free text by the loop. -/
theorem response_parsing_leniency_witness :
    parse_final_answer (decodeTable []) "I will now call a tool." = none
    ∧ parse_tool_code (decodeTable []) "<tool_code>not json\x7b</tool_code>" = .ok (none, none)
    ∧ classifyRound (decodeTable []) echoToolReg "<tool_code>not json\x7b</tool_code>" = .freeText :=
  ⟨response_parsing_leniency.1 (decodeTable []) "I will now call a tool." rfl,
   response_parsing_leniency.2.2.2.1 (decodeTable []) "<tool_code>not json\x7b</tool_code>"
     "not json\x7b" "Expecting value: line 1 column 1 (char 0)" rfl rfl,
   response_parsing_leniency.2.2.2.2 (decodeTable []) echoToolReg
     "<tool_code>not json\x7b</tool_code>"
     (response_parsing_leniency.2.2.2.1 (decodeTable []) "<tool_code>not json\x7b</tool_code>"
       "not json\x7b" "Expecting value: line 1 column 1 (char 0)" rfl rfl)⟩

/-- One round of the shared agent loop on a truthy final answer: the
loop terminates at once with the decoded payload, after a single model
invocation and without executing any tool. -/
theorem plainAgentLoop_final_answer (decode : String → Except String Json) (tools : ToolReg)
    (model : Model) (msg : String) (fuel idx : Nat) (prompt last text : String) (fa : Json)
    (hmodel : model idx = .ok ⟨true, text⟩)
    (hfa : parse_final_answer decode text = some fa)
    (htruthy : fa.truthy = true) :
    plainAgentLoop decode tools model msg (fuel + 1) idx prompt last
      = { result := .ok fa, rawCalls := 1, toolsRun := [], prompts := [prompt] } := by
  simp only [plainAgentLoop, hmodel, hfa, Option.filter, htruthy, if_true]

/-- One round of the builder loop on a truthy final answer: the loop
terminates at once with the cleaned payload (or the uncaught exception
raised while cleaning it), after a single raw model invocation and
without executing any tool. -/
theorem builderLoop_final_answer (decode : String → Except String Json) (tools : ToolReg)
    (model : Model) (fuel idx : Nat) (prompt text : String) (fa : Json)
    (hmodel : model idx = .ok ⟨true, text⟩)
    (hfa : parse_final_answer decode text = some fa)
    (htruthy : fa.truthy = true) :
    builderLoop decode tools model (fuel + 1) idx prompt
      = { result := match builderFinalize fa with
                    | .ok cleaned => .ok cleaned
                    | .error m => .error (.pyError m),
          rawCalls := 1, toolsRun := [], prompts := [prompt] } := by
  have hr := retryCall_ok model idx ⟨true, text⟩ hmodel
  simp only [builderLoop, hr, Bool.cond_true, hfa, Option.filter, htruthy, if_true]
  cases hb : builderFinalize fa <;> simp [hb]

/-- Counterexample to claim C5 as stated: a response text containing a
well-formed final-answer block and a well-formed registered tool-call
block for which the run does NOT terminate with the decoded final-answer
payload and DOES execute the tool.  The final-answer payload here is the
empty object: it JSON-decodes successfully, but Python truthiness sends
the loop past it to the tool call, and the run later exhausts its
iteration bound. -/
theorem falsy_final_answer_not_terminating :
    parse_final_answer falsyFinalDecode falsyFinalText = some (Json.obj [])
    ∧ parse_tool_code falsyFinalDecode falsyFinalText
        = .ok (some (Json.str "Echo"), some (Json.obj []))
    ∧ toolFunc echoToolReg "Echo" = some (fun _ => .ok "echoed")
    ∧ (plainAgentLoop falsyFinalDecode echoToolReg falsyFinalModel
        "Confidence & Merge Controller Agent reached max iterations without providing a final answer."
        10 0 "PROMPT" "").toolsRun = ["Echo"]
    ∧ (plainAgentLoop falsyFinalDecode echoToolReg falsyFinalModel
        "Confidence & Merge Controller Agent reached max iterations without providing a final answer."
        10 0 "PROMPT" "").result
        = .ok (agent_exhausted_result
            "Confidence & Merge Controller Agent reached max iterations without providing a final answer."
            "continuing") :=
  ⟨rfl, rfl, rfl, rfl, rfl⟩

/-- Claim C5 (amended): for every model response text that contains both
a well-formed final-answer block and a well-formed registered tool-call
block, IF the final-answer payload decodes to a truthy value (a falsy
payload such as the empty object instead falls through to the tool
call), the loop terminates that run successfully on round one with the
decoded payload and does not execute the tool; the builder loop likewise
terminates on round one without executing the tool. -/
theorem final_answer_priority (decode : String → Except String Json) (tools : ToolReg)
    (model : Model) (msg prompt0 text : String) (fa : Json) (name : String) (params : Json)
    (f : Json → Except String String)
    (hmodel : model 0 = .ok ⟨true, text⟩)
    (hfa : parse_final_answer decode text = some fa)
    (htruthy : fa.truthy = true)
    (htool : parse_tool_code decode text = .ok (some (Json.str name), some params))
    (hnonempty : (name == "") = false)
    (hreg : toolFunc tools name = some f) :
    plainAgentLoop decode tools model msg 10 0 prompt0 ""
      = { result := .ok fa, rawCalls := 1, toolsRun := [], prompts := [prompt0] }
    ∧ (builder_run decode tools model prompt0).toolsRun = []
    ∧ (builder_run decode tools model prompt0).rawCalls = 1 := by
  have h1 := plainAgentLoop_final_answer decode tools model msg 9 0 prompt0 "" text fa
    hmodel hfa htruthy
  have h2 := builderLoop_final_answer decode tools model 9 0 prompt0 text fa
    hmodel hfa htruthy
  refine ⟨h1, ?_, ?_⟩ <;> rw [builder_run, h2]

/-- Witness for the amended C5: a response carrying both a truthy
final-answer block and a registered `Echo` tool call terminates the loop
on round one with the payload and runs no tool. -/
theorem final_answer_priority_witness :
    parse_final_answer priorityDecode priorityText = some (Json.obj [("status", Json.str "success")])
    ∧ (Json.obj [("status", Json.str "success")]).truthy = true
    ∧ parse_tool_code priorityDecode priorityText
        = .ok (some (Json.str "Echo"), some (Json.obj []))
    ∧ plainAgentLoop priorityDecode echoToolReg (fun _ => .ok ⟨true, priorityText⟩)
        "Reviewer Agent reached max iterations without providing a final answer." 10 0 "PROMPT" ""
      = { result := .ok (Json.obj [("status", Json.str "success")]),
          rawCalls := 1, toolsRun := [], prompts := ["PROMPT"] } :=
  ⟨rfl, rfl, rfl,
   (final_answer_priority priorityDecode echoToolReg (fun _ => .ok ⟨true, priorityText⟩)
      "Reviewer Agent reached max iterations without providing a final answer." "PROMPT"
      priorityText (Json.obj [("status", Json.str "success")]) "Echo" (Json.obj [])
      (fun _ => .ok "echoed") rfl rfl rfl rfl rfl rfl).1⟩

/-- If every raw model invocation fails, the builder catches the failure
(whatever kind it resolves to after retries) and returns a failure
result dict instead of raising. -/
theorem builder_model_failure_caught (decode : String → Except String Json) (tools : ToolReg)
    (model : Model) (prompt0 : String) (h : ∀ i, ∃ e, model i = .error e) :
    ∃ msg, (builder_run decode tools model prompt0).result = .ok (builder_failure_result msg) := by
  rcases hR : retryCall model 0 with ⟨out, used, ws⟩
  cases out with
  | ok r =>
    exfalso
    have hok : (retryGo model 0 1 3).1 = .ok r := by
      show (retryCall model 0).1 = .ok r
      rw [hR]
    rcases retryGo_ok_exists model 3 0 1 r hok with ⟨j, hj⟩
    rcases h j with ⟨e, he⟩
    rw [he] at hj
    exact absurd hj (by simp)
  | retryError e =>
    refine ⟨"Builder Agent failed due to an unexpected error: " ++ retryErrorText e, ?_⟩
    rw [builder_run, show (10 : Nat) = 9 + 1 from rfl]
    simp only [builderLoop, hR]
  | raised e =>
    cases e with
    | resourceExhausted m =>
      refine ⟨"Builder Agent failed due to Gemini API quota exhaustion: " ++ m, ?_⟩
      rw [builder_run, show (10 : Nat) = 9 + 1 from rfl]
      simp only [builderLoop, hR]
    | other m =>
      refine ⟨"Builder Agent failed due to an unexpected error: " ++ m, ?_⟩
      rw [builder_run, show (10 : Nat) = 9 + 1 from rfl]
      simp only [builderLoop, hR]

/-- Counterexample to claim C2 as stated: `ReviewerAgent.run_review`
calls the model with no `try/except`, so a model-call failure propagates
out of the entry point as an exception instead of being returned as a
result value. -/
theorem reviewer_model_failure_raises :
    (run_review (decodeTable []) [] (fun _ => .error (.other "503 Service Unavailable"))
      "PROMPT").result
      = .error (.uncaught (.other "503 Service Unavailable")) := by
  rfl

/-- Claim C2 (amended): `BuilderAgent.run` returns a failure-result value
for every model-call failure (and, like all agents, converts in-loop
tool failures to conversation segments and returns a result on
iteration exhaustion); but `ReviewerAgent.run_review` — and likewise the
QA, impact-analyzer and merge-controller agents, which share the same
unprotected model call — propagates a model-call failure as an uncaught
exception. -/
theorem agent_entry_error_handling :
    (∀ (decode : String → Except String Json) (tools : ToolReg) (model : Model)
        (prompt0 : String), (∀ i, ∃ e, model i = .error e) →
        ∃ msg, (builder_run decode tools model prompt0).result = .ok (builder_failure_result msg))
    ∧ (∀ (decode : String → Except String Json) (tools : ToolReg) (model : Model)
        (prompt0 : String) (e : GenError), model 0 = .error e →
        (run_review decode tools model prompt0).result = .error (.uncaught e)) := by
  refine ⟨builder_model_failure_caught, ?_⟩
  intro decode tools model prompt0 e h
  rw [run_review, show (10 : Nat) = 9 + 1 from rfl]
  simp only [plainAgentLoop, h]

/-- Witness for the amended C2: an always-rate-limited model makes the
builder return a failure result, while a failing model makes the
reviewer raise. -/
theorem agent_entry_error_handling_witness :
    (∃ msg, (builder_run (decodeTable []) []
        (fun _ => .error (.resourceExhausted "429 quota exceeded")) "PROMPT").result
      = .ok (builder_failure_result msg))
    ∧ (run_review (decodeTable []) [] (fun _ => .error (.other "503 Service Unavailable"))
        "PROMPT").result
      = .error (.uncaught (.other "503 Service Unavailable")) :=
  ⟨agent_entry_error_handling.1 (decodeTable []) []
     (fun _ => .error (.resourceExhausted "429 quota exceeded")) "PROMPT"
     (fun _ => ⟨.resourceExhausted "429 quota exceeded", rfl⟩),
   agent_entry_error_handling.2 (decodeTable []) []
     (fun _ => .error (.other "503 Service Unavailable")) "PROMPT"
     (.other "503 Service Unavailable") rfl⟩

/-- One free-text round of the shared agent loop: the loop appends the
assistant segment and continues with one more raw call recorded. -/
theorem plainAgentLoop_freeText_step (decode : String → Except String Json) (tools : ToolReg)
    (model : Model) (msg : String) (fuel idx : Nat) (prompt last text : String)
    (hmodel : model idx = .ok ⟨true, text⟩)
    (hfa : (parse_final_answer decode text).filter Json.truthy = none)
    (hact : classifyRound decode tools text = .freeText) :
    plainAgentLoop decode tools model msg (fuel + 1) idx prompt last
      = { result := (plainAgentLoop decode tools model msg fuel (idx + 1)
            (prompt ++ roundSeg text RoundAction.freeText) text).result,
          rawCalls := 1 + (plainAgentLoop decode tools model msg fuel (idx + 1)
            (prompt ++ roundSeg text RoundAction.freeText) text).rawCalls,
          toolsRun := (plainAgentLoop decode tools model msg fuel (idx + 1)
            (prompt ++ roundSeg text RoundAction.freeText) text).toolsRun,
          prompts := prompt :: (plainAgentLoop decode tools model msg fuel (idx + 1)
            (prompt ++ roundSeg text RoundAction.freeText) text).prompts } := by
  simp only [plainAgentLoop, hmodel, hfa, hact]
  simp [roundTool]

/-- One free-text round of the builder loop. -/
theorem builderLoop_freeText_step (decode : String → Except String Json) (tools : ToolReg)
    (model : Model) (fuel idx : Nat) (prompt text : String)
    (hmodel : model idx = .ok ⟨true, text⟩)
    (hfa : (parse_final_answer decode text).filter Json.truthy = none)
    (hact : classifyRound decode tools text = .freeText) :
    builderLoop decode tools model (fuel + 1) idx prompt
      = { result := (builderLoop decode tools model fuel (idx + 1)
            (prompt ++ roundSeg text RoundAction.freeText)).result,
          rawCalls := 1 + (builderLoop decode tools model fuel (idx + 1)
            (prompt ++ roundSeg text RoundAction.freeText)).rawCalls,
          toolsRun := (builderLoop decode tools model fuel (idx + 1)
            (prompt ++ roundSeg text RoundAction.freeText)).toolsRun,
          prompts := prompt :: (builderLoop decode tools model fuel (idx + 1)
            (prompt ++ roundSeg text RoundAction.freeText)).prompts } := by
  have hr := retryCall_ok model idx ⟨true, text⟩ hmodel
  simp only [builderLoop, hr, Bool.cond_true]
  rw [hfa, hact]
  simp [roundTool]

/-- An agent loop fed only unrecognized text runs through its whole fuel:
one raw model call per round, no tools, and the exhaustion dict carrying
the last response text. -/
theorem plainAgentLoop_unrecognized (decode : String → Except String Json) (tools : ToolReg)
    (model : Model) (msg : String) (t : Nat → String)
    (hmodel : ∀ i, model i = .ok ⟨true, t i⟩)
    (hfa : ∀ i, (parse_final_answer decode (t i)).filter Json.truthy = none)
    (hact : ∀ i, classifyRound decode tools (t i) = .freeText) :
    ∀ fuel idx prompt last,
      (plainAgentLoop decode tools model msg (fuel + 1) idx prompt last).result
        = .ok (agent_exhausted_result msg (t (idx + fuel)))
      ∧ (plainAgentLoop decode tools model msg (fuel + 1) idx prompt last).rawCalls = fuel + 1
      ∧ (plainAgentLoop decode tools model msg (fuel + 1) idx prompt last).toolsRun = [] := by
  intro fuel
  induction fuel with
  | zero =>
    intro idx prompt last
    rw [plainAgentLoop_freeText_step decode tools model msg 0 idx prompt last (t idx)
      (hmodel idx) (hfa idx) (hact idx)]
    simp [plainAgentLoop]
  | succ n ih =>
    intro idx prompt last
    rw [plainAgentLoop_freeText_step decode tools model msg (n + 1) idx prompt last (t idx)
      (hmodel idx) (hfa idx) (hact idx)]
    have step := ih (idx + 1) (prompt ++ roundSeg (t idx) RoundAction.freeText) (t idx)
    refine ⟨?_, ?_, ?_⟩
    · show (plainAgentLoop decode tools model msg (n + 1) (idx + 1)
        (prompt ++ roundSeg (t idx) RoundAction.freeText) (t idx)).result = _
      rw [step.1, show idx + 1 + n = idx + (n + 1) by omega]
    · show 1 + (plainAgentLoop decode tools model msg (n + 1) (idx + 1)
        (prompt ++ roundSeg (t idx) RoundAction.freeText) (t idx)).rawCalls = _
      rw [step.2.1]
      omega
    · exact step.2.2

/-- The builder loop fed only unrecognized text runs through its whole
fuel: one raw model call per round, no tools, and the fixed exhaustion
dict (which mentions no response text). -/
theorem builderLoop_unrecognized (decode : String → Except String Json) (tools : ToolReg)
    (model : Model) (t : Nat → String)
    (hmodel : ∀ i, model i = .ok ⟨true, t i⟩)
    (hfa : ∀ i, (parse_final_answer decode (t i)).filter Json.truthy = none)
    (hact : ∀ i, classifyRound decode tools (t i) = .freeText) :
    ∀ fuel idx prompt,
      (builderLoop decode tools model fuel idx prompt).result = .ok builder_exhausted_result
      ∧ (builderLoop decode tools model fuel idx prompt).rawCalls = fuel
      ∧ (builderLoop decode tools model fuel idx prompt).toolsRun = [] := by
  intro fuel
  induction fuel with
  | zero =>
    intro idx prompt
    simp [builderLoop]
  | succ n ih =>
    intro idx prompt
    rw [builderLoop_freeText_step decode tools model n idx prompt (t idx)
      (hmodel idx) (hfa idx) (hact idx)]
    have step := ih (idx + 1) (prompt ++ roundSeg (t idx) RoundAction.freeText)
    refine ⟨step.1, ?_, step.2.2⟩
    show 1 + (builderLoop decode tools model n (idx + 1)
      (prompt ++ roundSeg (t idx) RoundAction.freeText)).rawCalls = _
    rw [step.2.1]
    omega

/-- Counterexample to claim C3 as stated: the builder, fed unrecognized
text (`zqx`), does run exactly 10 rounds and return a failure result
whose message states the iteration cap was reached, but that result is
the fixed dict `builder_exhausted_result` — identical for a run whose
responses were `wvu` instead — and none of its strings contains the last
raw response text. -/
theorem builder_exhaustion_omits_raw_response :
    (builder_run (decodeTable []) [] (fun _ => .ok ⟨true, "zqx"⟩) "PROMPT").result
      = .ok builder_exhausted_result
    ∧ (builder_run (decodeTable []) [] (fun _ => .ok ⟨true, "wvu"⟩) "PROMPT").result
      = .ok builder_exhausted_result
    ∧ (builder_run (decodeTable []) [] (fun _ => .ok ⟨true, "zqx"⟩) "PROMPT").rawCalls = 10
    ∧ strContains "failure" "zqx" = false
    ∧ strContains "Builder Agent reached max iterations without providing a final answer." "zqx"
        = false :=
  ⟨rfl, rfl, rfl, rfl, rfl⟩

/-- Claim C3 (amended): an agent loop whose model responses never
contain a recognized tool-call or final-answer block performs exactly
the configured maximum of 10 rounds (10 model calls) and returns a
failure result whose message states the iteration cap was reached; the
reviewer/QA/impact-analyzer/merge-controller loops additionally include
the last raw model response text under `raw_response`, but the Builder
loop returns a fixed failure dict that does not include the last raw
response. -/
theorem iteration_exhaustion_spec (decode : String → Except String Json) (tools : ToolReg)
    (model : Model) (t : Nat → String) (prompt0 : String)
    (hmodel : ∀ i, model i = .ok ⟨true, t i⟩)
    (hfa : ∀ i, (parse_final_answer decode (t i)).filter Json.truthy = none)
    (hact : ∀ i, classifyRound decode tools (t i) = .freeText) :
    (builder_run decode tools model prompt0).result = .ok builder_exhausted_result
    ∧ (builder_run decode tools model prompt0).rawCalls = 10
    ∧ (run_review decode tools model prompt0).result
        = .ok (agent_exhausted_result
            "Reviewer Agent reached max iterations without providing a final answer." (t 9))
    ∧ (run_review decode tools model prompt0).rawCalls = 10 := by
  have hb := builderLoop_unrecognized decode tools model t hmodel hfa hact 10 0 prompt0
  have hp := plainAgentLoop_unrecognized decode tools model
    "Reviewer Agent reached max iterations without providing a final answer." t hmodel hfa hact
    9 0 prompt0 ""
  exact ⟨hb.1, hb.2.1, hp.1, hp.2.1⟩

/-- Witness for the amended C3: a stub that always answers `hello`
exhausts both loops in exactly 10 rounds; the reviewer result carries
`hello` as `raw_response`, the builder result is the fixed dict. -/
theorem iteration_exhaustion_spec_witness :
    (builder_run (decodeTable []) [] (fun _ => .ok ⟨true, "hello"⟩) "PROMPT").result
      = .ok builder_exhausted_result
    ∧ (builder_run (decodeTable []) [] (fun _ => .ok ⟨true, "hello"⟩) "PROMPT").rawCalls = 10
    ∧ (run_review (decodeTable []) [] (fun _ => .ok ⟨true, "hello"⟩) "PROMPT").result
      = .ok (agent_exhausted_result
          "Reviewer Agent reached max iterations without providing a final answer." "hello")
    ∧ (run_review (decodeTable []) [] (fun _ => .ok ⟨true, "hello"⟩) "PROMPT").rawCalls = 10 :=
  iteration_exhaustion_spec (decodeTable []) [] (fun _ => .ok ⟨true, "hello"⟩)
    (fun _ => "hello") "PROMPT" (fun _ => rfl) (fun _ => rfl) (fun _ => rfl)

/-- If no entry of a field list carries key `k`, filtering `k` out does
nothing (Python `del` is guarded by `in`, so the two agree). -/
theorem filter_eq_self_of_not_any (fields : List (String × Json)) (k : String)
    (h : fields.any (fun p => p.1 == k) = false) :
    fields.filter (fun p => !(p.1 == k)) = fields := by
  rw [List.filter_eq_self]
  intro a ha
  cases hx : (a.1 == k) with
  | false => simp [hx]
  | true =>
    exfalso
    have : fields.any (fun p => p.1 == k) = true := List.any_eq_true.mpr ⟨a, ha, hx⟩
    rw [this] at h
    exact Bool.noConfusion h

/-- `BuilderAgent.run` final-answer cleanup on a dict: the result is the
field list with the `pr_url` entries and then the `pr_number` entries
filtered out. -/
theorem builderFinalize_obj (fields : List (String × Json)) :
    builderFinalize (Json.obj fields)
      = .ok (Json.obj ((fields.filter (fun p => !(p.1 == "pr_url"))).filter
          (fun p => !(p.1 == "pr_number")))) := by
  unfold builderFinalize
  simp only [Json.pyContains, bind, Except.bind]
  by_cases h1 : fields.any (fun p => p.1 == "pr_url") = true
  · simp only [h1, if_true, Json.pyDelKey, Json.pyContains]
    by_cases h2 : (fields.filter (fun p => !(p.1 == "pr_url"))).any
        (fun p => p.1 == "pr_number") = true
    · simp [h2, Json.pyDelKey]
    · have hf2 : (fields.filter (fun p => !(p.1 == "pr_url"))).any
          (fun p => p.1 == "pr_number") = false := by
        cases hx : (fields.filter (fun p => !(p.1 == "pr_url"))).any
            (fun p => p.1 == "pr_number")
        · rfl
        · exact absurd hx h2
      simp [hf2, pure, Except.pure, filter_eq_self_of_not_any _ _ hf2]
  · have hf1 : fields.any (fun p => p.1 == "pr_url") = false := by
      cases hx : fields.any (fun p => p.1 == "pr_url")
      · rfl
      · exact absurd hx h1
    rw [filter_eq_self_of_not_any _ _ hf1]
    simp only [hf1, Bool.false_eq_true, if_false, pure, Except.pure, Json.pyContains,
      Json.pyDelKey]
    by_cases h2 : fields.any (fun p => p.1 == "pr_number") = true
    · simp [h2]
    · have hf2 : fields.any (fun p => p.1 == "pr_number") = false := by
        cases hx : fields.any (fun p => p.1 == "pr_number")
        · rfl
        · exact absurd hx h2
      simp [hf2, filter_eq_self_of_not_any _ _ hf2]

/-- Claim C10: whenever `BuilderAgent.run` terminates via a successfully
parsed (truthy) final-answer dict, the returned mapping is the parsed
field list with `pr_url` and `pr_number` filtered out — those keys are
absent even if the model supplied them, and every other entry is
returned unchanged and in order. -/
theorem builder_strips_pr_keys (decode : String → Except String Json) (tools : ToolReg)
    (model : Model) (prompt0 text : String) (fields : List (String × Json))
    (hmodel : model 0 = .ok ⟨true, text⟩)
    (hfa : parse_final_answer decode text = some (Json.obj fields))
    (hne : fields ≠ []) :
    (builder_run decode tools model prompt0).result
      = .ok (Json.obj ((fields.filter (fun p => !(p.1 == "pr_url"))).filter
          (fun p => !(p.1 == "pr_number"))))
    ∧ ((fields.filter (fun p => !(p.1 == "pr_url"))).filter
        (fun p => !(p.1 == "pr_number"))).all
        (fun p => !(p.1 == "pr_url") && !(p.1 == "pr_number")) = true := by
  have htruthy : (Json.obj fields).truthy = true := by
    cases fields with
    | nil => exact absurd rfl hne
    | cons a l => rfl
  have h := builderLoop_final_answer decode tools model 9 0 prompt0 text (Json.obj fields)
    hmodel hfa htruthy
  constructor
  · rw [builder_run, show (10 : Nat) = 9 + 1 from rfl, h]
    simp [builderFinalize_obj]
  · rw [List.all_eq_true]
    intro p hp
    have h2 := List.mem_filter.mp hp
    have h1 := List.mem_filter.mp h2.1
    simp [h1.2, h2.2]

set_option maxRecDepth 16384 in
/-- Witness for C10: a final answer carrying `status`,
`local_changes_made`, `pr_url` and `pr_number` is returned with exactly
the first two entries. -/
theorem builder_strips_pr_keys_witness :
    parse_final_answer prKeysDecode prKeysText
      = some (Json.obj [("status", Json.str "success"), ("local_changes_made", Json.bool true),
          ("pr_url", Json.str "https://github.com/Merothiya/Snakes-Ladders-and-Faith/pull/7"),
          ("pr_number", Json.num 7)])
    ∧ (builder_run prKeysDecode [] (fun _ => .ok ⟨true, prKeysText⟩) "PROMPT").result
      = .ok (Json.obj [("status", Json.str "success"), ("local_changes_made", Json.bool true)]) :=
  ⟨rfl,
   (builder_strips_pr_keys prKeysDecode [] (fun _ => .ok ⟨true, prKeysText⟩) "PROMPT"
      prKeysText
      [("status", Json.str "success"), ("local_changes_made", Json.bool true),
       ("pr_url", Json.str "https://github.com/Merothiya/Snakes-Ladders-and-Faith/pull/7"),
       ("pr_number", Json.num 7)]
      rfl rfl (List.cons_ne_nil _ _)).1⟩

/-- Extending a prompt-prefix chain by the round that produced it. -/
theorem prompts_chain_cons (prompt p2 : String) (l : List String)
    (hext : ∃ s, p2 = prompt ++ s)
    (hshape : l = [] ∨ ∃ rest, l = p2 :: rest)
    (hchain : List.Chain' (fun a b => ∃ s, b = a ++ s) l) :
    List.Chain' (fun a b => ∃ s, b = a ++ s) (prompt :: l) := by
  rcases hshape with rfl | ⟨rest, rfl⟩
  · simp
  · exact List.Chain'.cons hext hchain

/-- The prompt trace of the shared agent loop is empty (fuel 0) or starts
with the submitted prompt. -/
theorem plainAgentLoop_prompts_shape (decode : String → Except String Json) (tools : ToolReg)
    (model : Model) (msg : String) :
    ∀ fuel idx prompt last,
      (plainAgentLoop decode tools model msg fuel idx prompt last).prompts = []
      ∨ ∃ rest, (plainAgentLoop decode tools model msg fuel idx prompt last).prompts
          = prompt :: rest := by
  intro fuel idx prompt last
  cases fuel with
  | zero => left; rfl
  | succ n =>
    right
    simp only [plainAgentLoop]
    split
    · exact ⟨[], rfl⟩
    · split
      · exact ⟨[], rfl⟩
      · split
        · exact ⟨[], rfl⟩
        · exact ⟨_, rfl⟩

/-- Each round of the shared agent loop appends to the previous prompt:
the prompt trace is a chain under the is-prefix-by-concatenation
relation. -/
theorem plainAgentLoop_chain (decode : String → Except String Json) (tools : ToolReg)
    (model : Model) (msg : String) :
    ∀ fuel idx prompt last,
      List.Chain' (fun a b => ∃ s, b = a ++ s)
        ((plainAgentLoop decode tools model msg fuel idx prompt last).prompts) := by
  intro fuel
  induction fuel with
  | zero => intro idx prompt last; simp [plainAgentLoop]
  | succ n ih =>
    intro idx prompt last
    simp only [plainAgentLoop]
    split
    · simp
    · split
      · simp
      · split
        · simp
        · exact prompts_chain_cons prompt _ _ ⟨_, rfl⟩
            (plainAgentLoop_prompts_shape decode tools model msg n (idx + 1) _ _)
            (ih (idx + 1) _ _)

/-- The prompt trace of the builder loop is empty (fuel 0) or starts with
the submitted prompt. -/
theorem builderLoop_prompts_shape (decode : String → Except String Json) (tools : ToolReg)
    (model : Model) :
    ∀ fuel idx prompt,
      (builderLoop decode tools model fuel idx prompt).prompts = []
      ∨ ∃ rest, (builderLoop decode tools model fuel idx prompt).prompts = prompt :: rest := by
  intro fuel idx prompt
  cases fuel with
  | zero => left; rfl
  | succ n =>
    right
    simp only [builderLoop]
    split
    · exact ⟨[], rfl⟩
    · exact ⟨[], rfl⟩
    · exact ⟨[], rfl⟩
    · split
      · split
        · exact ⟨[], rfl⟩
        · exact ⟨[], rfl⟩
      · split
        · exact ⟨[], rfl⟩
        · exact ⟨_, rfl⟩

/-- Each round of the builder loop appends to the previous prompt. -/
theorem builderLoop_chain (decode : String → Except String Json) (tools : ToolReg)
    (model : Model) :
    ∀ fuel idx prompt,
      List.Chain' (fun a b => ∃ s, b = a ++ s)
        ((builderLoop decode tools model fuel idx prompt).prompts) := by
  intro fuel
  induction fuel with
  | zero => intro idx prompt; simp [builderLoop]
  | succ n ih =>
    intro idx prompt
    simp only [builderLoop]
    split
    · simp
    · simp
    · simp
    · split
      · split
        · simp
        · simp
      · split
        · simp
        · exact prompts_chain_cons prompt _ _ ⟨_, rfl⟩
            (builderLoop_prompts_shape decode tools model n _ _) (ih _ _)

/-- The prompt trace of the product-manager loop is empty (fuel 0) or
starts with the submitted prompt. -/
theorem pmLoop_prompts_shape (decode : String → Except String Json) (model : Model) :
    ∀ fuel idx prompt,
      (pmLoop decode model fuel idx prompt).prompts = []
      ∨ ∃ rest, (pmLoop decode model fuel idx prompt).prompts = prompt :: rest := by
  intro fuel idx prompt
  cases fuel with
  | zero => left; rfl
  | succ n =>
    right
    simp only [pmLoop]
    split
    · exact ⟨[], rfl⟩
    · exact ⟨[], rfl⟩
    · split
      · split
        · split
          · exact ⟨[], rfl⟩
          · exact ⟨_, rfl⟩
        · exact ⟨_, rfl⟩
      · exact ⟨_, rfl⟩

/-- Each round of the product-manager loop appends to the previous
prompt. -/
theorem pmLoop_chain (decode : String → Except String Json) (model : Model) :
    ∀ fuel idx prompt,
      List.Chain' (fun a b => ∃ s, b = a ++ s) ((pmLoop decode model fuel idx prompt).prompts) := by
  intro fuel
  induction fuel with
  | zero => intro idx prompt; simp [pmLoop]
  | succ n ih =>
    intro idx prompt
    simp only [pmLoop]
    split
    · simp
    · simp
    · split
      · split
        · split
          · simp
          · rename_i inner hextract xdec e hdec
            exact prompts_chain_cons prompt _ _
              ⟨"\n\nError: Invalid JSON format. Please ensure the output is valid JSON. Error: "
                ++ e ++ "\nInvalid JSON: " ++ pyStrip inner, by simp [String.append_assoc]⟩
              (pmLoop_prompts_shape decode model n _ _) (ih _ _)
        · exact prompts_chain_cons prompt _ _ ⟨_, rfl⟩
            (pmLoop_prompts_shape decode model n _ _) (ih _ _)
      · exact prompts_chain_cons prompt _ _ ⟨_, rfl⟩
          (pmLoop_prompts_shape decode model n _ _) (ih _ _)

/-- Claim C8: within one agent loop run the conversation state is
append-only — after every round, whether it appended a tool-output
segment, a tool-error segment or an assistant free-text segment, the
prompt before the round is a prefix (by concatenation) of the prompt
after the round, so the prompt length is monotonically non-decreasing
across the run; this holds for the shared agent loop, the builder loop
and the product-manager loop. -/
theorem conversation_append_only :
    (∀ (decode : String → Except String Json) (tools : ToolReg) (model : Model)
        (msg : String) (fuel idx : Nat) (prompt last : String),
      List.Chain' (fun a b => ∃ s, b = a ++ s)
        ((plainAgentLoop decode tools model msg fuel idx prompt last).prompts))
    ∧ (∀ (decode : String → Except String Json) (tools : ToolReg) (model : Model)
        (fuel idx : Nat) (prompt : String),
      List.Chain' (fun a b => ∃ s, b = a ++ s)
        ((builderLoop decode tools model fuel idx prompt).prompts))
    ∧ (∀ (decode : String → Except String Json) (model : Model) (fuel idx : Nat)
        (prompt : String),
      List.Chain' (fun a b => ∃ s, b = a ++ s) ((pmLoop decode model fuel idx prompt).prompts))
    ∧ (∀ (decode : String → Except String Json) (tools : ToolReg) (model : Model)
        (msg : String) (fuel idx : Nat) (prompt last : String),
      List.Chain' (fun a b => a.length ≤ b.length)
        ((plainAgentLoop decode tools model msg fuel idx prompt last).prompts))
    ∧ (∀ (decode : String → Except String Json) (tools : ToolReg) (model : Model)
        (fuel idx : Nat) (prompt : String),
      List.Chain' (fun a b => a.length ≤ b.length)
        ((builderLoop decode tools model fuel idx prompt).prompts))
    ∧ (∀ (decode : String → Except String Json) (model : Model) (fuel idx : Nat)
        (prompt : String),
      List.Chain' (fun a b => a.length ≤ b.length)
        ((pmLoop decode model fuel idx prompt).prompts)) := by
  have himp : ∀ a b : String, (∃ s, b = a ++ s) → a.length ≤ b.length := by
    rintro a b ⟨s, rfl⟩
    simp [String.length_append]
  refine ⟨fun decode tools model msg fuel idx prompt last =>
            plainAgentLoop_chain decode tools model msg fuel idx prompt last,
          fun decode tools model fuel idx prompt =>
            builderLoop_chain decode tools model fuel idx prompt,
          fun decode model fuel idx prompt => pmLoop_chain decode model fuel idx prompt,
          fun decode tools model msg fuel idx prompt last =>
            List.Chain'.imp himp (plainAgentLoop_chain decode tools model msg fuel idx prompt last),
          fun decode tools model fuel idx prompt =>
            List.Chain'.imp himp (builderLoop_chain decode tools model fuel idx prompt),
          fun decode model fuel idx prompt =>
            List.Chain'.imp himp (pmLoop_chain decode model fuel idx prompt)⟩

end Epitome
